import Mathlib

/-!
Shallow embedding of src/src/imagehost/githubimagehost.cpp (class GitHubImageHost).
The HTTP transport and the JSON codec are external collaborators of the module;
the transport is modelled as a function from requests to replies, and every
operation additionally returns the list of requests it issued, in order.
QString values are modelled as Lean strings; QString helpers operate on the
underlying character list.
-/

/-- Model of QString::isEmpty. -/
def qIsEmpty (s : String) : Bool := s.data.isEmpty

/-- Model of QString::startsWith: the second argument is the candidate front part. -/
def qStartsWith (s pre : String) : Bool := pre.data.isPrefixOf s.data

/-- Model of QString::mid(n): the string without its first n characters. -/
def qMid (s : String) (n : Nat) : String := String.mk (s.data.drop n)

/-- Model of QString::size. -/
def qSize (s : String) : Nat := s.data.length

/-- Model of the QJsonValue values this module manipulates: strings, objects and
the undefined/null value that QJsonObject lookup yields for an absent key. -/
inductive JsonValue where
  | jnull : JsonValue
  | jstr : String → JsonValue
  | jobj : List (String × JsonValue) → JsonValue

/-- Lookup of a key in a QJsonObject field list. -/
def lookupField : List (String × JsonValue) → String → JsonValue
  | [], _ => .jnull
  | (k, v) :: rest, key => if k = key then v else lookupField rest key

/-- Model of QJsonObject/QJsonValue operator[] and value(): an absent key or a
non-object receiver yields the undefined value, modelled as jnull. -/
def JsonValue.value : JsonValue → String → JsonValue
  | .jobj fields, key => lookupField fields key
  | _, _ => .jnull

/-- Model of QJsonValue::toString: a non-string value yields the empty string. -/
def JsonValue.toStr : JsonValue → String
  | .jstr s => s
  | _ => ""

/-- Model of QJsonValue::toObject: a non-object value yields the empty object. -/
def JsonValue.toObj : JsonValue → JsonValue
  | .jobj fields => .jobj fields
  | _ => .jobj []

/-- Insertion into a QJsonObject field list; QJsonObject keeps its keys sorted
and operator[]= replaces the value of an existing key. -/
def insertField : List (String × JsonValue) → String → JsonValue → List (String × JsonValue)
  | [], key, v => [(key, v)]
  | (k, w) :: rest, key, v =>
    if key < k then (key, v) :: (k, w) :: rest
    else if key = k then (key, v) :: rest
    else (k, w) :: insertField rest key v

/-- Model of QJsonObject operator[]= (obj[key] = v). -/
def JsonValue.insert : JsonValue → String → JsonValue → JsonValue
  | .jobj fields, key, v => .jobj (insertField fields key v)
  | _, key, v => .jobj (insertField [] key v)

/-- Escaping of one character inside a JSON string literal. -/
def escapeJsonChar (c : Char) : List Char :=
  if c = '\"' then ['\\', '\"']
  else if c = '\\' then ['\\', '\\']
  else if c = '\n' then ['\\', 'n']
  else if c = '\r' then ['\\', 'r']
  else if c = '\t' then ['\\', 't']
  else [c]

/-- Escaping of a whole string for inclusion in JSON text. -/
def escapeJson (s : String) : String := String.mk ((s.data.map escapeJsonChar).flatten)

mutual
/-- Modelled from the spec: the JSON codec (Utils::toJsonString over
QJsonDocument, not under src/) renders a value as compact JSON text, object
keys in sorted order as QJsonObject stores them. -/
def serializeJson : JsonValue → String
  | .jnull => "null"
  | .jstr s => "\"" ++ escapeJson s ++ "\""
  | .jobj fields => "\x7b" ++ serializeFields fields ++ "\x7d"

/-- Serialization of the comma-separated members of a JSON object. -/
def serializeFields : List (String × JsonValue) → String
  | [] => ""
  | [(k, v)] => "\"" ++ escapeJson k ++ "\":" ++ serializeJson v
  | (k, v) :: rest => "\"" ++ escapeJson k ++ "\":" ++ serializeJson v ++ "," ++ serializeFields rest
end

/-- Modelled from the spec: Utils::toJsonString (not under src/) serializes a
JSON object into the request body text. -/
def toJsonString (v : JsonValue) : String := serializeJson v

/-- Opening brace character, kept as a named constant. -/
def lbrace : Char := Char.ofNat 123

/-- Closing brace character, kept as a named constant. -/
def rbrace : Char := Char.ofNat 125

/-- JSON insignificant whitespace. -/
def isJsonWs (c : Char) : Bool := c = ' ' || c = '\n' || c = '\r' || c = '\t'

/-- Discard leading JSON whitespace. -/
def dropJsonWs (cs : List Char) : List Char := cs.dropWhile isJsonWs

/-- Parse the body of a JSON string literal after its opening quote, returning
the decoded characters and the rest of the input after the closing quote. -/
def parseStringBody : Nat → List Char → Option (List Char × List Char)
  | 0, _ => none
  | _, [] => none
  | fuel+1, c :: rest =>
    if c = '\"' then some ([], rest)
    else if c = '\\' then
      match rest with
      | [] => none
      | e :: rest2 =>
        let dec : Option Char :=
          if e = '\"' then some '\"'
          else if e = '\\' then some '\\'
          else if e = '/' then some '/'
          else if e = 'n' then some '\n'
          else if e = 'r' then some '\r'
          else if e = 't' then some '\t'
          else none
        match dec with
        | none => none
        | some d =>
          match parseStringBody fuel rest2 with
          | none => none
          | some (cs, rem) => some (d :: cs, rem)
    else
      match parseStringBody fuel rest with
      | none => none
      | some (cs, rem) => some (c :: cs, rem)

mutual
/-- Parse one JSON value (string, object or null — the shapes this module
meets) and return it with the unconsumed input. -/
def parseValue : Nat → List Char → Option (JsonValue × List Char)
  | 0, _ => none
  | fuel+1, cs =>
    match dropJsonWs cs with
    | [] => none
    | c :: rest =>
      if c = '\"' then
        match parseStringBody (rest.length + 1) rest with
        | some (body, rem) => some (.jstr (String.mk body), rem)
        | none => none
      else if c = lbrace then
        match dropJsonWs rest with
        | [] => none
        | c2 :: rest3 =>
          if c2 = rbrace then some (.jobj [], rest3)
          else
            match parseMembers fuel (c2 :: rest3) with
            | some (fields, rem) => some (.jobj fields, rem)
            | none => none
      else if c = 'n' then
        match rest with
        | 'u' :: 'l' :: 'l' :: rem => some (.jnull, rem)
        | _ => none
      else none

/-- Parse the members of a JSON object up to and including its closing brace. -/
def parseMembers : Nat → List Char → Option (List (String × JsonValue) × List Char)
  | 0, _ => none
  | fuel+1, cs =>
    match dropJsonWs cs with
    | [] => none
    | c :: rest =>
      if c = '\"' then
        match parseStringBody (rest.length + 1) rest with
        | none => none
        | some (key, rem) =>
          match dropJsonWs rem with
          | [] => none
          | c2 :: rem2 =>
            if c2 = ':' then
              match parseValue fuel rem2 with
              | none => none
              | some (v, rem3) =>
                match dropJsonWs rem3 with
                | [] => none
                | c3 :: rem4 =>
                  if c3 = ',' then
                    match parseMembers fuel rem4 with
                    | none => none
                    | some (fields, rem5) => some ((String.mk key, v) :: fields, rem5)
                  else if c3 = rbrace then some ([(String.mk key, v)], rem4)
                  else none
            else none
      else none
end

/-- Modelled from the spec: Utils::fromJsonString (not under src/) parses reply
text and yields the document object; a parse failure or a non-object document
yields the empty object. -/
def fromJsonString (s : String) : JsonValue :=
  match parseValue (s.data.length + 1) s.data with
  | some (.jobj fields, rem) =>
    if (dropJsonWs rem).isEmpty then .jobj fields else .jobj []
  | _ => .jobj []

/-- Base64 alphabet, as used by QByteArray::toBase64. -/
def base64Table : List Char :=
  "ABCDEFGHIJKLMNOPQRSTUVWXYZabcdefghijklmnopqrstuvwxyz0123456789+/".data

/-- One base64 output character. -/
def b64c (n : Nat) : Char := base64Table.getD n 'A'

/-- Base64 encoding of a byte list, three input bytes to four output
characters, padded with = as QByteArray::toBase64 does. -/
def base64Chunks : List Nat → List Char
  | [] => []
  | [b1] => [b64c (b1 / 4), b64c (b1 % 4 * 16), '=', '=']
  | [b1, b2] => [b64c (b1 / 4), b64c (b1 % 4 * 16 + b2 / 16), b64c (b2 % 16 * 4), '=']
  | b1 :: b2 :: b3 :: rest =>
    b64c (b1 / 4) :: b64c (b1 % 4 * 16 + b2 / 16) :: b64c (b2 % 16 * 4 + b3 / 64) ::
      b64c (b3 % 64) :: base64Chunks rest

/-- Model of QByteArray::toBase64 on a list of bytes. -/
def toBase64 (bytes : List Nat) : String := String.mk (base64Chunks bytes)

/-- Value of one hexadecimal digit; the ranges are written over the numeric
code points 0-9 (48..57), a-f (97..102) and A-F (65..70). -/
def hexDigitVal (c : Char) : Option Nat :=
  let n := c.toNat
  if 48 ≤ n ∧ n ≤ 57 then some (n - 48)
  else if 97 ≤ n ∧ n ≤ 102 then some (n - 87)
  else if 65 ≤ n ∧ n ≤ 70 then some (n - 55)
  else none

/-- Percent-decoding of a character list: a % followed by two hex digits
becomes the encoded character; anything else is kept as is. -/
def percentDecode : List Char → List Char
  | [] => []
  | '%' :: a :: b :: cs2 =>
    match hexDigitVal a, hexDigitVal b with
    | some hi, some lo => Char.ofNat (16 * hi + lo) :: percentDecode cs2
    | _, _ => '%' :: percentDecode (a :: b :: cs2)
  | c :: cs => c :: percentDecode cs

/-- Modelled from the spec: WebUtils::purifyUrl is not under src/; the spec
says the stripped remainder is normalized/decoded into a repository-relative
path by percent-decoding / URL canonicalization, modelled as percent-decoding. -/
def purifyUrl (s : String) : String := String.mk (percentDecode s.data)

/-- HTTP method of a transport request. -/
inductive HttpMethod where
  | GET : HttpMethod
  | PUT : HttpMethod
  | DELETE : HttpMethod
deriving DecidableEq, Repr

/-- One request handed to the transport collaborator. -/
structure HttpRequest where
  method : HttpMethod
  url : String
  headers : List (String × String)
  body : Option String
deriving DecidableEq, Repr

/-- Model of QNetworkReply::NetworkError as far as this module distinguishes
error kinds: no error, content-not-found, and everything else. -/
inductive NetworkError where
  | NoError : NetworkError
  | ContentNotFoundError : NetworkError
  | OtherError : Nat → NetworkError
deriving DecidableEq, Repr

/-- Model of vte::NetworkReply: transport error kind plus body bytes. -/
structure NetworkReply where
  m_error : NetworkError
  m_data : String
deriving DecidableEq, Repr

/-- Modelled from the spec: vte::NetworkReply::errorStr (external transport
collaborator) renders the transport error kind as text. -/
def NetworkReply.errorStr (r : NetworkReply) : String :=
  match r.m_error with
  | .NoError => "NoError"
  | .ContentNotFoundError => "ContentNotFoundError"
  | .OtherError n => "NetworkError " ++ toString n

/-- Injectable synchronous transport: each issued request yields one reply. -/
abbrev Transport : Type := HttpRequest → NetworkReply

/-- State of a GitHubImageHost object: the three configuration fields and the
derived image URL front part recomputed by setConfig. -/
structure GitHubImageHost where
  m_personalAccessToken : String
  m_userName : String
  m_repoName : String
  m_imageUrlPrefix : String
deriving DecidableEq, Repr

/-- Value of GitHubImageHost::c_apiUrl. -/
def c_apiUrl : String := "https://api.github.com"

/-- GitHubImageHost::ready. -/
def GitHubImageHost.ready (host : GitHubImageHost) : Bool :=
  !(qIsEmpty host.m_personalAccessToken) && !(qIsEmpty host.m_userName)
    && !(qIsEmpty host.m_repoName)

/-- GitHubImageHost::getConfig: builds the object by three keyed insertions. -/
def GitHubImageHost.getConfig (host : GitHubImageHost) : JsonValue :=
  (((JsonValue.jobj []).insert "personal_access_token" (.jstr host.m_personalAccessToken)).insert
      "user_name" (.jstr host.m_userName)).insert
    "repository_name" (.jstr host.m_repoName)

/-- GitHubImageHost::parseConfig: reads the three keys as strings; a missing or
non-string value reads as the empty string. -/
def parseConfig (cfg : JsonValue) : String × String × String :=
  ((cfg.value "personal_access_token").toStr,
   (cfg.value "user_name").toStr,
   (cfg.value "repository_name").toStr)

/-- Image URL front part as built in setConfig from the %1/%2 format string. -/
def imageUrlPrefixFor (userName repoName : String) : String :=
  "https://raw.githubusercontent.com/" ++ userName ++ "/" ++ repoName ++ "/master/"

/-- GitHubImageHost::setConfig: stores the parsed fields and recomputes the
derived image URL front part. -/
def GitHubImageHost.setConfig (_host : GitHubImageHost) (cfg : JsonValue) : GitHubImageHost :=
  let parsed := parseConfig cfg
  { m_personalAccessToken := parsed.1,
    m_userName := parsed.2.1,
    m_repoName := parsed.2.2,
    m_imageUrlPrefix := imageUrlPrefixFor parsed.2.1 parsed.2.2 }

/-- Configuration object holding the three persisted keys, as the settings
collaborator hands it to setConfig/testConfig. -/
def mkHostConfig (token userName repoName : String) : JsonValue :=
  JsonValue.jobj
    [("personal_access_token", .jstr token),
     ("repository_name", .jstr repoName),
     ("user_name", .jstr userName)]

/-- GitHubImageHost::authorizationHeader. -/
def authorizationHeader (token : String) : String × String :=
  ("Authorization", "token " ++ token)

/-- GitHubImageHost::acceptHeader. -/
def acceptHeader : String × String :=
  ("Accept", "application/vnd.github.v3+json")

/-- GitHubImageHost::prepareCommonHeaders. -/
def prepareCommonHeaders (token : String) : List (String × String) :=
  [authorizationHeader token, acceptHeader]

/-- Request issued by GitHubImageHost::getRepoInfo. -/
def repoInfoRequest (token userName repoName : String) : HttpRequest :=
  { method := .GET,
    url := c_apiUrl ++ "/repos/" ++ userName ++ "/" ++ repoName,
    headers := prepareCommonHeaders token,
    body := none }

/-- GitHubImageHost::getRepoInfo. -/
def getRepoInfo (net : Transport) (token userName repoName : String) : NetworkReply :=
  net (repoInfoRequest token userName repoName)

/-- Result of GitHubImageHost::testConfig: return value, message out-parameter,
requests issued. -/
structure TestConfigResult where
  ok : Bool
  msg : String
  requests : List HttpRequest
deriving DecidableEq, Repr

/-- GitHubImageHost::testConfig. -/
def testConfig (net : Transport) (cfg : JsonValue) : TestConfigResult :=
  let parsed := parseConfig cfg
  if qIsEmpty parsed.1 || qIsEmpty parsed.2.1 || qIsEmpty parsed.2.2 then
    { ok := false,
      msg := "PersonalAccessToken/UserName/RepositoryName should not be empty.",
      requests := [] }
  else
    let reply := getRepoInfo net parsed.1 parsed.2.1 parsed.2.2
    { ok := reply.m_error == NetworkError.NoError,
      msg := reply.m_data,
      requests := [repoInfoRequest parsed.1 parsed.2.1 parsed.2.2] }

/-- Contents API URL for a path, as built in createResource and remove. -/
def contentsUrlFor (host : GitHubImageHost) (path : String) : String :=
  c_apiUrl ++ "/repos/" ++ host.m_userName ++ "/" ++ host.m_repoName ++ "/contents/" ++ path

/-- Existence/SHA GET request against the contents URL. -/
def contentsGetRequest (host : GitHubImageHost) (path : String) : HttpRequest :=
  { method := .GET,
    url := contentsUrlFor host path,
    headers := prepareCommonHeaders host.m_personalAccessToken,
    body := none }

/-- Body of the creation PUT, serialized from the message/content object. -/
def createPutBody (content : List Nat) (path : String) : String :=
  toJsonString (((JsonValue.jobj []).insert "message" (.jstr ("VX_ADD: " ++ path))).insert
    "content" (.jstr (toBase64 content)))

/-- Creation PUT request against the contents URL. -/
def createPutRequest (host : GitHubImageHost) (content : List Nat) (path : String) : HttpRequest :=
  { method := .PUT,
    url := contentsUrlFor host path,
    headers := prepareCommonHeaders host.m_personalAccessToken,
    body := some (createPutBody content path) }

/-- Result of GitHubImageHost::create/createResource: returned URL, message
out-parameter, requests issued. The message out-parameter is passed in as
p_msg and returned unchanged on paths that do not write it. -/
structure CreateResult where
  url : String
  msg : String
  requests : List HttpRequest
deriving DecidableEq, Repr

/-- GitHubImageHost::createResource. -/
def GitHubImageHost.createResource (host : GitHubImageHost) (net : Transport)
    (p_content : List Nat) (p_path : String) (p_msg : String) : CreateResult :=
  if !host.ready then
    { url := "", msg := "Invalid GitHub image host configuration.", requests := [] }
  else
    let reply := net (contentsGetRequest host p_path)
    if reply.m_error == NetworkError.NoError then
      { url := "",
        msg := "The resource already exists at the image host (" ++ p_path ++ ").",
        requests := [contentsGetRequest host p_path] }
    else if reply.m_error != NetworkError.ContentNotFoundError then
      { url := "",
        msg := "Failed to query the resource at the image host (" ++ contentsUrlFor host p_path
          ++ ") (" ++ reply.errorStr ++ ") (" ++ reply.m_data ++ ").",
        requests := [contentsGetRequest host p_path] }
    else
      let reply2 := net (createPutRequest host p_content p_path)
      if reply2.m_error != NetworkError.NoError then
        { url := "",
          msg := "Failed to create resource at the image host (" ++ contentsUrlFor host p_path
            ++ ") (" ++ reply2.errorStr ++ ") (" ++ reply2.m_data ++ ").",
          requests := [contentsGetRequest host p_path, createPutRequest host p_content p_path] }
      else
        let replyObj := fromJsonString reply2.m_data
        let targetUrl := (((replyObj.value "content").toObj).value "download_url").toStr
        if qIsEmpty targetUrl then
          { url := targetUrl,
            msg := "Failed to create resource at the image host (" ++ contentsUrlFor host p_path
              ++ ") (" ++ reply2.errorStr ++ ") (" ++ reply2.m_data ++ ").",
            requests := [contentsGetRequest host p_path, createPutRequest host p_content p_path] }
        else
          { url := targetUrl,
            msg := p_msg,
            requests := [contentsGetRequest host p_path, createPutRequest host p_content p_path] }

/-- GitHubImageHost::create. -/
def GitHubImageHost.create (host : GitHubImageHost) (net : Transport)
    (p_data : List Nat) (p_path : String) (p_msg : String) : CreateResult :=
  if qIsEmpty p_path then
    { url := "", msg := "Failed to create image with empty path.", requests := [] }
  else
    host.createResource net p_data p_path p_msg

/-- GitHubImageHost::ownsUrl. -/
def GitHubImageHost.ownsUrl (host : GitHubImageHost) (p_url : String) : Bool :=
  qStartsWith p_url host.m_imageUrlPrefix

/-- Result of GitHubImageHost::remove: return value, message out-parameter,
requests issued. -/
structure RemoveResult where
  ok : Bool
  msg : String
  requests : List HttpRequest
deriving DecidableEq, Repr

/-- Body of the deletion request, serialized from the message/sha object. -/
def deleteBody (resourcePath sha : String) : String :=
  toJsonString (((JsonValue.jobj []).insert "message" (.jstr ("VX_DEL: " ++ resourcePath))).insert
    "sha" (.jstr sha))

/-- Deletion request against the contents URL. -/
def deleteRequest (host : GitHubImageHost) (resourcePath sha : String) : HttpRequest :=
  { method := .DELETE,
    url := contentsUrlFor host resourcePath,
    headers := prepareCommonHeaders host.m_personalAccessToken,
    body := some (deleteBody resourcePath sha) }

/-- GitHubImageHost::remove. -/
def GitHubImageHost.remove (host : GitHubImageHost) (net : Transport)
    (p_url : String) (p_msg : String) : RemoveResult :=
  if !host.ready then
    { ok := false, msg := "Invalid GitHub image host configuration.", requests := [] }
  else
    let resourcePath := purifyUrl (qMid p_url (qSize host.m_imageUrlPrefix))
    let reply := net (contentsGetRequest host resourcePath)
    if reply.m_error != NetworkError.NoError then
      { ok := false,
        msg := "Failed to fetch information about the resource (" ++ resourcePath ++ ").",
        requests := [contentsGetRequest host resourcePath] }
    else
      let replyObj := fromJsonString reply.m_data
      let sha := (replyObj.value "sha").toStr
      if qIsEmpty sha then
        { ok := false,
          msg := "Failed to fetch SHA about the resource (" ++ resourcePath ++ ") ("
            ++ reply.m_data ++ ").",
          requests := [contentsGetRequest host resourcePath] }
      else
        let reply2 := net (deleteRequest host resourcePath sha)
        if reply2.m_error != NetworkError.NoError then
          { ok := false,
            msg := "Failed to delete resource (" ++ resourcePath ++ ") ("
              ++ reply2.m_data ++ ").",
            requests := [contentsGetRequest host resourcePath,
              deleteRequest host resourcePath sha] }
        else
          { ok := true,
            msg := p_msg,
            requests := [contentsGetRequest host resourcePath,
              deleteRequest host resourcePath sha] }

/-! Helper lemmas about the QString model. -/

theorem qIsEmpty_iff (s : String) : qIsEmpty s = true ↔ s = "" := by
  constructor
  · intro h
    apply String.ext
    simpa [qIsEmpty, List.isEmpty_iff] using h
  · intro h
    subst h
    rfl

theorem qIsEmpty_eq_false_iff (s : String) : qIsEmpty s = false ↔ s ≠ "" := by
  have h := qIsEmpty_iff s
  cases hq : qIsEmpty s <;> simp_all

/-- Claim C9: ready() returns true exactly when the access token, the user
name and the repository name are all non-empty; it is a pure function of the
stored configuration. -/
theorem ready_iff_fields_nonempty (host : GitHubImageHost) :
    host.ready = true ↔
      host.m_personalAccessToken ≠ "" ∧ host.m_userName ≠ "" ∧ host.m_repoName ≠ "" := by
  simp only [GitHubImageHost.ready, Bool.and_eq_true, Bool.not_eq_true',
    qIsEmpty_eq_false_iff, and_assoc]

/-- Claim C7: create() with an empty path fails immediately with the
empty-path message and issues no request, whatever the configuration state
and content; the path check comes before the readiness check. -/
theorem create_empty_path (host : GitHubImageHost) (net : Transport)
    (p_data : List Nat) (p_msg : String) :
    host.create net p_data "" p_msg =
      { url := "", msg := "Failed to create image with empty path.", requests := [] } := by
  rfl

/-- Claim C8: when ready() is false, createResource with a non-empty path and
remove with an owned URL each fail immediately with the invalid-configuration
message and issue no request; both are pure functions of the stored
configuration, which is therefore unchanged. -/
theorem not_ready_fails_immediately (host : GitHubImageHost) (net : Transport)
    (p_content : List Nat) (p_path p_url p_msg : String)
    (hready : host.ready = false) (hpath : qIsEmpty p_path = false)
    (howns : host.ownsUrl p_url = true) :
    host.createResource net p_content p_path p_msg =
      { url := "", msg := "Invalid GitHub image host configuration.", requests := [] } ∧
    host.remove net p_url p_msg =
      { ok := false, msg := "Invalid GitHub image host configuration.", requests := [] } := by
  constructor
  · simp [GitHubImageHost.createResource, hready]
  · simp [GitHubImageHost.remove, hready]

/-- Witness for claim C8 at a concrete unready host with a non-empty path and
an owned URL. -/
theorem not_ready_fails_immediately_witness :
    (⟨"", "", "", ""⟩ : GitHubImageHost).createResource
        (fun _ => ⟨NetworkError.NoError, ""⟩) [1, 2] "img.png" "m" =
      { url := "", msg := "Invalid GitHub image host configuration.", requests := [] } ∧
    (⟨"", "", "", ""⟩ : GitHubImageHost).remove
        (fun _ => ⟨NetworkError.NoError, ""⟩) "x" "m" =
      { ok := false, msg := "Invalid GitHub image host configuration.", requests := [] } :=
  not_ready_fails_immediately ⟨"", "", "", ""⟩ (fun _ => ⟨NetworkError.NoError, ""⟩)
    [1, 2] "img.png" "x" "m" (by decide) (by decide) (by decide)

/-- Claim C2: with a ready configuration, when the existence GET reports no
transport error the resource already exists: createResource fails with the
already-exists message, and the only request issued is that GET, so no PUT is
ever issued and nothing is overwritten. -/
theorem createResource_already_exists (host : GitHubImageHost) (net : Transport)
    (p_content : List Nat) (p_path p_msg : String)
    (hready : host.ready = true) (hpath : qIsEmpty p_path = false)
    (hget : (net (contentsGetRequest host p_path)).m_error = NetworkError.NoError) :
    host.createResource net p_content p_path p_msg =
      { url := "",
        msg := "The resource already exists at the image host (" ++ p_path ++ ").",
        requests := [contentsGetRequest host p_path] } ∧
    ∀ q ∈ (host.createResource net p_content p_path p_msg).requests,
      q.method = HttpMethod.GET := by
  have h : host.createResource net p_content p_path p_msg =
      { url := "",
        msg := "The resource already exists at the image host (" ++ p_path ++ ").",
        requests := [contentsGetRequest host p_path] } := by
    simp [GitHubImageHost.createResource, hready, hget]
  refine ⟨h, ?_⟩
  intro q hq
  rw [h] at hq
  simp only [List.mem_singleton] at hq
  subst hq
  rfl

/-- Witness for claim C2 at a concrete ready host whose transport reports
success for the existence GET. -/
theorem createResource_already_exists_witness :
    (⟨"t", "u", "r", "https://raw.githubusercontent.com/u/r/master/"⟩ : GitHubImageHost).createResource
        (fun _ => ⟨NetworkError.NoError, "ok"⟩) [1] "img.png" "m" =
      { url := "",
        msg := "The resource already exists at the image host (" ++ "img.png" ++ ").",
        requests := [contentsGetRequest
          ⟨"t", "u", "r", "https://raw.githubusercontent.com/u/r/master/"⟩ "img.png"] } :=
  (createResource_already_exists
    ⟨"t", "u", "r", "https://raw.githubusercontent.com/u/r/master/"⟩
    (fun _ => ⟨NetworkError.NoError, "ok"⟩) [1] "img.png" "m"
    (by decide) (by decide) (by decide)).1

/-- Claim C5: testConfig fails immediately with the should-not-be-empty
message and no network call when any parsed field is empty; otherwise it
issues exactly one GET against apiBase/repos/owner/repo, returns ok exactly
when the transport reports no error, and always sets the message to the raw
response body. -/
theorem testConfig_spec (net : Transport) (cfg : JsonValue) :
    ((qIsEmpty (parseConfig cfg).1 || qIsEmpty (parseConfig cfg).2.1
        || qIsEmpty (parseConfig cfg).2.2) = true →
      testConfig net cfg =
        { ok := false,
          msg := "PersonalAccessToken/UserName/RepositoryName should not be empty.",
          requests := [] }) ∧
    ((qIsEmpty (parseConfig cfg).1 || qIsEmpty (parseConfig cfg).2.1
        || qIsEmpty (parseConfig cfg).2.2) = false →
      (testConfig net cfg).requests =
        [repoInfoRequest (parseConfig cfg).1 (parseConfig cfg).2.1 (parseConfig cfg).2.2] ∧
      (testConfig net cfg).msg =
        (net (repoInfoRequest (parseConfig cfg).1 (parseConfig cfg).2.1
          (parseConfig cfg).2.2)).m_data ∧
      ((testConfig net cfg).ok = true ↔
        (net (repoInfoRequest (parseConfig cfg).1 (parseConfig cfg).2.1
          (parseConfig cfg).2.2)).m_error = NetworkError.NoError)) := by
  constructor
  · intro h
    simp [testConfig, h]
  · intro h
    simp [testConfig, getRepoInfo, h]

/-- Witness for claim C5: an empty configuration object fails without any
request, and a fully populated one issues the single repo GET and reports the
transport body and outcome. -/
theorem testConfig_spec_witness :
    testConfig (fun _ => ⟨NetworkError.NoError, "body-text"⟩) (JsonValue.jobj []) =
      { ok := false,
        msg := "PersonalAccessToken/UserName/RepositoryName should not be empty.",
        requests := [] } ∧
    ((testConfig (fun _ => ⟨NetworkError.NoError, "body-text"⟩)
        (JsonValue.jobj [("personal_access_token", .jstr "t"),
          ("repository_name", .jstr "r"), ("user_name", .jstr "u")])).requests =
      [repoInfoRequest "t" "u" "r"] ∧
    (testConfig (fun _ => ⟨NetworkError.NoError, "body-text"⟩)
        (JsonValue.jobj [("personal_access_token", .jstr "t"),
          ("repository_name", .jstr "r"), ("user_name", .jstr "u")])).msg = "body-text" ∧
    ((testConfig (fun _ => ⟨NetworkError.NoError, "body-text"⟩)
        (JsonValue.jobj [("personal_access_token", .jstr "t"),
          ("repository_name", .jstr "r"), ("user_name", .jstr "u")])).ok = true ↔
      NetworkError.NoError = NetworkError.NoError)) :=
  ⟨(testConfig_spec (fun _ => ⟨NetworkError.NoError, "body-text"⟩)
      (JsonValue.jobj [])).1 (by decide),
   (testConfig_spec (fun _ => ⟨NetworkError.NoError, "body-text"⟩)
      (JsonValue.jobj [("personal_access_token", .jstr "t"),
        ("repository_name", .jstr "r"), ("user_name", .jstr "u")])).2 (by decide)⟩

theorem getConfig_fields (host : GitHubImageHost) : host.getConfig = JsonValue.jobj
    [("personal_access_token", .jstr host.m_personalAccessToken),
     ("repository_name", .jstr host.m_repoName),
     ("user_name", .jstr host.m_userName)] := by
  have h1 : ¬ (("user_name" : String) < "personal_access_token") := by
    rw [String.lt_iff_toList_lt]
    decide
  have h2 : ¬ (("user_name" : String) = "personal_access_token") := by decide
  have h3 : ¬ (("repository_name" : String) < "personal_access_token") := by
    rw [String.lt_iff_toList_lt]
    decide
  have h4 : ¬ (("repository_name" : String) = "personal_access_token") := by decide
  have h5 : (("repository_name" : String) < "user_name") := by
    rw [String.lt_iff_toList_lt]
    decide
  simp only [GitHubImageHost.getConfig, JsonValue.insert, insertField,
    if_neg h1, if_neg h2, if_neg h3, if_neg h4, if_pos h5]

theorem setConfig_getConfig (host : GitHubImageHost) (cfg : JsonValue) :
    (host.setConfig cfg).setConfig ((host.setConfig cfg).getConfig) = host.setConfig cfg := by
  have e2 : ¬ (("personal_access_token" : String) = "user_name") := by decide
  have e3 : ¬ (("repository_name" : String) = "user_name") := by decide
  have e5 : ¬ (("personal_access_token" : String) = "repository_name") := by decide
  rw [getConfig_fields]
  simp [GitHubImageHost.setConfig, parseConfig, JsonValue.value, lookupField,
    JsonValue.toStr, e2, e3, e5]

/-- Claim C10: setConfig stores exactly the three string values read from the
configuration keys, getConfig then returns an object holding exactly those
three keys and values, and feeding getConfig back into setConfig leaves the
whole host state unchanged. -/
theorem config_roundtrip (host : GitHubImageHost) (cfg : JsonValue) :
    (host.setConfig cfg).m_personalAccessToken = (cfg.value "personal_access_token").toStr ∧
    (host.setConfig cfg).m_userName = (cfg.value "user_name").toStr ∧
    (host.setConfig cfg).m_repoName = (cfg.value "repository_name").toStr ∧
    (host.setConfig cfg).getConfig = JsonValue.jobj
      [("personal_access_token", .jstr ((cfg.value "personal_access_token").toStr)),
       ("repository_name", .jstr ((cfg.value "repository_name").toStr)),
       ("user_name", .jstr ((cfg.value "user_name").toStr))] ∧
    (host.setConfig cfg).setConfig ((host.setConfig cfg).getConfig) = host.setConfig cfg :=
  ⟨rfl, rfl, rfl, by rw [getConfig_fields]; simp [GitHubImageHost.setConfig, parseConfig],
    setConfig_getConfig host cfg⟩

theorem createPutBody_eq (content : List Nat) (path : String) :
    createPutBody content path = toJsonString (JsonValue.jobj
      [("content", .jstr (toBase64 content)), ("message", .jstr ("VX_ADD: " ++ path))]) := by
  have h1 : (("content" : String) < "message") := by
    rw [String.lt_iff_toList_lt]
    decide
  simp [createPutBody, JsonValue.insert, insertField, h1]

/-- Claim C1: with a ready configuration and a non-empty path, when the
existence GET reports not-found, createResource issues exactly that GET
followed by a PUT whose JSON body holds message VX_ADD: path and the base64
content; when the PUT reports no transport error, a non-empty
content.download_url of the parsed reply is returned exactly, and an empty or
missing one yields the empty string with the failure message set. -/
theorem createResource_put_body_and_url (host : GitHubImageHost) (net : Transport)
    (p_content : List Nat) (p_path p_msg : String)
    (hready : host.ready = true) (hpath : qIsEmpty p_path = false)
    (hget : (net (contentsGetRequest host p_path)).m_error = NetworkError.ContentNotFoundError) :
    (host.createResource net p_content p_path p_msg).requests =
      [contentsGetRequest host p_path,
       { method := HttpMethod.PUT,
         url := contentsUrlFor host p_path,
         headers := prepareCommonHeaders host.m_personalAccessToken,
         body := some (toJsonString (JsonValue.jobj
           [("content", .jstr (toBase64 p_content)),
            ("message", .jstr ("VX_ADD: " ++ p_path))])) }] ∧
    ((net (createPutRequest host p_content p_path)).m_error = NetworkError.NoError →
      ((((fromJsonString (net (createPutRequest host p_content p_path)).m_data).value
          "content").toObj).value "download_url").toStr ≠ "" →
        (host.createResource net p_content p_path p_msg).url =
          ((((fromJsonString (net (createPutRequest host p_content p_path)).m_data).value
            "content").toObj).value "download_url").toStr) ∧
    ((net (createPutRequest host p_content p_path)).m_error = NetworkError.NoError →
      ((((fromJsonString (net (createPutRequest host p_content p_path)).m_data).value
          "content").toObj).value "download_url").toStr = "" →
        (host.createResource net p_content p_path p_msg).url = "" ∧
        (host.createResource net p_content p_path p_msg).msg =
          "Failed to create resource at the image host (" ++ contentsUrlFor host p_path
            ++ ") (" ++ (net (createPutRequest host p_content p_path)).errorStr ++ ") ("
            ++ (net (createPutRequest host p_content p_path)).m_data ++ ").") := by
  refine ⟨?_, ?_, ?_⟩
  · simp only [GitHubImageHost.createResource, hready, hget]
    rw [← createPutBody_eq]
    repeat' split
    all_goals simp_all [createPutRequest]
  · intro hput htgt
    rw [← qIsEmpty_eq_false_iff] at htgt
    simp [GitHubImageHost.createResource, hready, hget, hput, htgt]
  · intro hput htgt
    simp [GitHubImageHost.createResource, hready, hget, hput, htgt,
      show qIsEmpty "" = true from rfl]

/-- Witness for claim C1: a concrete not-found GET followed by a successful
PUT; the PUT body and the returned download URL are evaluated literally. -/
theorem createResource_put_body_and_url_witness :
    ((⟨"t", "u", "r", "https://raw.githubusercontent.com/u/r/master/"⟩ : GitHubImageHost).createResource
      (fun req => if req.method == HttpMethod.PUT then
        ⟨NetworkError.NoError,
         "\x7b\"content\":\x7b\"download_url\":\"https://raw.githubusercontent.com/u/r/master/img.png\"\x7d\x7d"⟩
      else ⟨NetworkError.ContentNotFoundError, "nf"⟩)
      [77, 97, 110] "img.png" "m").requests =
      [contentsGetRequest ⟨"t", "u", "r", "https://raw.githubusercontent.com/u/r/master/"⟩ "img.png",
       { method := HttpMethod.PUT,
         url := "https://api.github.com/repos/u/r/contents/img.png",
         headers := [("Authorization", "token t"), ("Accept", "application/vnd.github.v3+json")],
         body := some "\x7b\"content\":\"TWFu\",\"message\":\"VX_ADD: img.png\"\x7d" }] ∧
    ((⟨"t", "u", "r", "https://raw.githubusercontent.com/u/r/master/"⟩ : GitHubImageHost).createResource
      (fun req => if req.method == HttpMethod.PUT then
        ⟨NetworkError.NoError,
         "\x7b\"content\":\x7b\"download_url\":\"https://raw.githubusercontent.com/u/r/master/img.png\"\x7d\x7d"⟩
      else ⟨NetworkError.ContentNotFoundError, "nf"⟩)
      [77, 97, 110] "img.png" "m").url = "https://raw.githubusercontent.com/u/r/master/img.png" :=
  ⟨((createResource_put_body_and_url
      ⟨"t", "u", "r", "https://raw.githubusercontent.com/u/r/master/"⟩
      (fun req => if req.method == HttpMethod.PUT then
        ⟨NetworkError.NoError,
         "\x7b\"content\":\x7b\"download_url\":\"https://raw.githubusercontent.com/u/r/master/img.png\"\x7d\x7d"⟩
      else ⟨NetworkError.ContentNotFoundError, "nf"⟩)
      [77, 97, 110] "img.png" "m"
      (by decide) (by decide) (by decide)).1).trans (by decide),
   (((createResource_put_body_and_url
      ⟨"t", "u", "r", "https://raw.githubusercontent.com/u/r/master/"⟩
      (fun req => if req.method == HttpMethod.PUT then
        ⟨NetworkError.NoError,
         "\x7b\"content\":\x7b\"download_url\":\"https://raw.githubusercontent.com/u/r/master/img.png\"\x7d\x7d"⟩
      else ⟨NetworkError.ContentNotFoundError, "nf"⟩)
      [77, 97, 110] "img.png" "m"
      (by decide) (by decide) (by decide)).2.1 (by decide) (by decide)).trans (by decide))⟩

/-- Claim C4: when the SHA-fetch GET succeeds at the transport level but the
parsed body has an empty or missing sha field, remove fails with the
failed-to-fetch-SHA message naming the path and the raw body, and only the
GET was issued, so the DELETE is never sent. -/
theorem remove_missing_sha_fails (host : GitHubImageHost) (net : Transport)
    (p_url p_msg : String)
    (hready : host.ready = true) (howns : host.ownsUrl p_url = true)
    (hget : (net (contentsGetRequest host
        (purifyUrl (qMid p_url (qSize host.m_imageUrlPrefix))))).m_error = NetworkError.NoError)
    (hsha : ((fromJsonString (net (contentsGetRequest host
        (purifyUrl (qMid p_url (qSize host.m_imageUrlPrefix))))).m_data).value "sha").toStr
      = "") :
    host.remove net p_url p_msg =
      { ok := false,
        msg := "Failed to fetch SHA about the resource ("
          ++ purifyUrl (qMid p_url (qSize host.m_imageUrlPrefix)) ++ ") ("
          ++ (net (contentsGetRequest host (purifyUrl (qMid p_url
              (qSize host.m_imageUrlPrefix))))).m_data ++ ").",
        requests := [contentsGetRequest host (purifyUrl (qMid p_url
          (qSize host.m_imageUrlPrefix)))] } ∧
    ∀ q ∈ (host.remove net p_url p_msg).requests, q.method = HttpMethod.GET := by
  have h : host.remove net p_url p_msg =
      { ok := false,
        msg := "Failed to fetch SHA about the resource ("
          ++ purifyUrl (qMid p_url (qSize host.m_imageUrlPrefix)) ++ ") ("
          ++ (net (contentsGetRequest host (purifyUrl (qMid p_url
              (qSize host.m_imageUrlPrefix))))).m_data ++ ").",
        requests := [contentsGetRequest host (purifyUrl (qMid p_url
          (qSize host.m_imageUrlPrefix)))] } := by
    simp [GitHubImageHost.remove, hready, hget, hsha, show qIsEmpty "" = true from rfl]
  refine ⟨h, ?_⟩
  intro q hq
  rw [h] at hq
  simp only [List.mem_singleton] at hq
  subst hq
  rfl

/-- Witness for claim C4: the SHA-fetch GET returns a body without a sha
field; remove fails and issues only that GET. -/
theorem remove_missing_sha_fails_witness :
    (⟨"t", "u", "r", "https://raw.githubusercontent.com/u/r/master/"⟩ : GitHubImageHost).remove
      (fun _ => ⟨NetworkError.NoError, "\x7b\"nosha\":\"x\"\x7d"⟩)
      "https://raw.githubusercontent.com/u/r/master/img.png" "m" =
      { ok := false,
        msg := "Failed to fetch SHA about the resource (img.png) (\x7b\"nosha\":\"x\"\x7d).",
        requests := [contentsGetRequest
          ⟨"t", "u", "r", "https://raw.githubusercontent.com/u/r/master/"⟩ "img.png"] } :=
  ((remove_missing_sha_fails
      ⟨"t", "u", "r", "https://raw.githubusercontent.com/u/r/master/"⟩
      (fun _ => ⟨NetworkError.NoError, "\x7b\"nosha\":\"x\"\x7d"⟩)
      "https://raw.githubusercontent.com/u/r/master/img.png" "m"
      (by decide) (by decide) (by decide) (by decide)).1).trans (by decide)

theorem deleteBody_eq (resourcePath sha : String) :
    deleteBody resourcePath sha = toJsonString (JsonValue.jobj
      [("message", .jstr ("VX_DEL: " ++ resourcePath)), ("sha", .jstr sha)]) := by
  have h1 : ¬ (("sha" : String) < "message") := by
    rw [String.lt_iff_toList_lt]
    decide
  have h2 : ¬ (("sha" : String) = "message") := by decide
  simp [deleteBody, JsonValue.insert, insertField, h1, h2]

/-- Claim C3: remove computes the repository-relative path by dropping the
derived URL front part and percent-decoding the remainder, and when the SHA
fetch yields a non-empty SHA the DELETE request carries exactly the JSON body
with message VX_DEL: path and that sha. -/
theorem remove_delete_request_body (host : GitHubImageHost) (net : Transport)
    (p_url p_msg sha : String)
    (hready : host.ready = true) (howns : host.ownsUrl p_url = true)
    (hget : (net (contentsGetRequest host
        (purifyUrl (qMid p_url (qSize host.m_imageUrlPrefix))))).m_error = NetworkError.NoError)
    (hsha : ((fromJsonString (net (contentsGetRequest host
        (purifyUrl (qMid p_url (qSize host.m_imageUrlPrefix))))).m_data).value "sha").toStr
      = sha)
    (hne : sha ≠ "") :
    (host.remove net p_url p_msg).requests =
      [contentsGetRequest host (purifyUrl (qMid p_url (qSize host.m_imageUrlPrefix))),
       { method := HttpMethod.DELETE,
         url := contentsUrlFor host (purifyUrl (qMid p_url (qSize host.m_imageUrlPrefix))),
         headers := prepareCommonHeaders host.m_personalAccessToken,
         body := some (toJsonString (JsonValue.jobj
           [("message", .jstr ("VX_DEL: "
              ++ purifyUrl (qMid p_url (qSize host.m_imageUrlPrefix)))),
            ("sha", .jstr sha)])) }] := by
  have hq : qIsEmpty sha = false := by
    rw [qIsEmpty_eq_false_iff]
    exact hne
  simp only [GitHubImageHost.remove, hready, hget, hsha, hq]
  rw [← deleteBody_eq]
  repeat' split
  all_goals simp_all [deleteRequest]

/-- Witness for claim C3: with SHA abc123 and path img.png the DELETE body is
exactly the compact JSON text holding VX_DEL: img.png and abc123. -/
theorem remove_delete_request_body_witness :
    ((⟨"t", "u", "r", "https://raw.githubusercontent.com/u/r/master/"⟩ : GitHubImageHost).remove
      (fun req => if req.method == HttpMethod.GET then
        ⟨NetworkError.NoError, "\x7b\"sha\":\"abc123\"\x7d"⟩
      else ⟨NetworkError.NoError, "\x7b\x7d"⟩)
      "https://raw.githubusercontent.com/u/r/master/img.png" "m").requests =
      [contentsGetRequest ⟨"t", "u", "r", "https://raw.githubusercontent.com/u/r/master/"⟩
         "img.png",
       { method := HttpMethod.DELETE,
         url := "https://api.github.com/repos/u/r/contents/img.png",
         headers := [("Authorization", "token t"), ("Accept", "application/vnd.github.v3+json")],
         body := some "\x7b\"message\":\"VX_DEL: img.png\",\"sha\":\"abc123\"\x7d" }] :=
  ((remove_delete_request_body
      ⟨"t", "u", "r", "https://raw.githubusercontent.com/u/r/master/"⟩
      (fun req => if req.method == HttpMethod.GET then
        ⟨NetworkError.NoError, "\x7b\"sha\":\"abc123\"\x7d"⟩
      else ⟨NetworkError.NoError, "\x7b\x7d"⟩)
      "https://raw.githubusercontent.com/u/r/master/img.png" "m" "abc123"
      (by decide) (by decide) (by decide) (by decide) (by decide))).trans (by decide)

theorem isPrefixOf_iff_IsPrefix (l1 l2 : List Char) :
    l1.isPrefixOf l2 = true ↔ l1 <+: l2 := by
  induction l1 generalizing l2 with
  | nil => simp
  | cons a t ih =>
    cases l2 with
    | nil => simp
    | cons b t2 =>
      rw [List.isPrefixOf_cons₂, List.cons_prefix_cons, Bool.and_eq_true, beq_iff_eq, ih]

theorem slashSep_eq (a : List Char) : ∀ (b : List Char), '/' ∉ a → '/' ∉ b →
    ∀ x y : List Char, (a ++ '/' :: x) <+: (b ++ '/' :: y) → a = b ∧ x <+: y := by
  induction a with
  | nil =>
    intro b ha hb x y h
    cases b with
    | nil => exact ⟨rfl, by simpa using h⟩
    | cons c bt =>
      simp only [List.nil_append, List.cons_append, List.cons_prefix_cons] at h
      refine absurd ?_ hb
      rw [h.1]
      exact List.mem_cons_self c bt
  | cons c at2 ih =>
    intro b ha hb x y h
    cases b with
    | nil =>
      simp only [List.nil_append, List.cons_append, List.cons_prefix_cons] at h
      refine absurd ?_ ha
      have hc : '/' = c := h.1.symm
      rw [hc]
      exact List.mem_cons_self c at2
    | cons d bt =>
      simp only [List.cons_append, List.cons_prefix_cons] at h
      obtain ⟨hcd, h2⟩ := h
      have ha2 : '/' ∉ at2 := fun hm => ha (List.mem_cons_of_mem _ hm)
      have hb2 : '/' ∉ bt := fun hm => hb (List.mem_cons_of_mem _ hm)
      obtain ⟨heq, hxy⟩ := ih bt ha2 hb2 x y h2
      exact ⟨by rw [hcd, heq], hxy⟩

theorem imageUrlPrefixFor_data (o r : String) :
    (imageUrlPrefixFor o r).data =
      "https://raw.githubusercontent.com/".data ++
        (o.data ++ '/' :: (r.data ++ '/' :: "master/".data)) := by
  have h1 : ("/" : String).data = ['/'] := rfl
  have h2 : ("/master/" : String).data = '/' :: "master/".data := rfl
  simp [imageUrlPrefixFor, String.data_append, h1, h2, List.append_assoc]

theorem owns_both_impossible (o1 r1 o2 r2 u : String)
    (h1 : '/' ∉ o1.data) (h2 : '/' ∉ r1.data) (h3 : '/' ∉ o2.data) (h4 : '/' ∉ r2.data)
    (hne : ¬ (o1 = o2 ∧ r1 = r2))
    (hu1 : (imageUrlPrefixFor o1 r1).data <+: u.data)
    (hu2 : (imageUrlPrefixFor o2 r2).data <+: u.data) : False := by
  rw [imageUrlPrefixFor_data] at hu1 hu2
  have hcomp := List.prefix_or_prefix_of_prefix hu1 hu2
  rcases hcomp with hc | hc
  · rw [List.prefix_append_right_inj] at hc
    obtain ⟨ho, hrest⟩ := slashSep_eq _ _ h1 h3 _ _ hc
    obtain ⟨hr, _⟩ := slashSep_eq _ _ h2 h4 _ _ hrest
    exact hne ⟨String.ext ho, String.ext hr⟩
  · rw [List.prefix_append_right_inj] at hc
    obtain ⟨ho, hrest⟩ := slashSep_eq _ _ h3 h1 _ _ hc
    obtain ⟨hr, _⟩ := slashSep_eq _ _ h4 h2 _ _ hrest
    exact hne ⟨(String.ext ho).symm, (String.ext hr).symm⟩

theorem parseConfig_mkHostConfig (token userName repoName : String) :
    parseConfig (mkHostConfig token userName repoName) = (token, userName, repoName) := by
  have e2 : ¬ (("personal_access_token" : String) = "user_name") := by decide
  have e3 : ¬ (("repository_name" : String) = "user_name") := by decide
  have e5 : ¬ (("personal_access_token" : String) = "repository_name") := by decide
  simp [parseConfig, mkHostConfig, JsonValue.value, lookupField, JsonValue.toStr, e2, e3, e5]

/-- Counterexample to claim C6 as stated: owner and repository names are
unrestricted strings, so after reconfiguring with a different owner and repo
(here containing slashes) a previously owned URL can still be owned; the
flip-to-false part of the claim fails on the code. -/
theorem ownsUrl_flip_counterexample :
    ((⟨"", "", "", ""⟩ : GitHubImageHost).setConfig
        (mkHostConfig "t" "u" "r")).ownsUrl
        "https://raw.githubusercontent.com/u/r/master/a/b/master/c" = true ∧
    ¬ ((("u/r/master/a" : String), ("b" : String)) = (("u" : String), ("r" : String))) ∧
    ((⟨"", "", "", ""⟩ : GitHubImageHost).setConfig
        (mkHostConfig "t2" "u/r/master/a" "b")).ownsUrl
        "https://raw.githubusercontent.com/u/r/master/a/b/master/c" = true := by
  refine ⟨by decide, by decide, by decide⟩

/-- Claim C6 (amended): after setConfig, ownsUrl holds exactly for URLs that
start with https://raw.githubusercontent.com/owner/repo/master/; and provided
the owner and repository names contain no slash, reconfiguring with a
different owner or repo makes ownsUrl false for every previously owned URL. -/
theorem ownsUrl_iff_and_flip (h0 h0' : GitHubImageHost) (t1 t2 o1 r1 o2 r2 u : String)
    (hs1 : '/' ∉ o1.data) (hs2 : '/' ∉ r1.data) (hs3 : '/' ∉ o2.data) (hs4 : '/' ∉ r2.data)
    (hne : ¬ (o1 = o2 ∧ r1 = r2)) :
    (∀ v : String, (h0.setConfig (mkHostConfig t1 o1 r1)).ownsUrl v =
        qStartsWith v (imageUrlPrefixFor o1 r1)) ∧
    ((h0.setConfig (mkHostConfig t1 o1 r1)).ownsUrl u = true →
      (h0'.setConfig (mkHostConfig t2 o2 r2)).ownsUrl u = false) := by
  have hpre1 : (h0.setConfig (mkHostConfig t1 o1 r1)).m_imageUrlPrefix =
      imageUrlPrefixFor o1 r1 := by
    simp [GitHubImageHost.setConfig, parseConfig_mkHostConfig]
  have hpre2 : (h0'.setConfig (mkHostConfig t2 o2 r2)).m_imageUrlPrefix =
      imageUrlPrefixFor o2 r2 := by
    simp [GitHubImageHost.setConfig, parseConfig_mkHostConfig]
  constructor
  · intro v
    rw [GitHubImageHost.ownsUrl, hpre1]
  · intro howns
    rw [GitHubImageHost.ownsUrl, hpre1] at howns
    by_contra hcon
    rw [GitHubImageHost.ownsUrl, hpre2] at hcon
    have h2' : qStartsWith u (imageUrlPrefixFor o2 r2) = true := by
      cases hq : qStartsWith u (imageUrlPrefixFor o2 r2) with
      | false => exact absurd hq hcon
      | true => rfl
    rw [qStartsWith, isPrefixOf_iff_IsPrefix] at howns h2'
    exact owns_both_impossible o1 r1 o2 r2 u hs1 hs2 hs3 hs4 hne howns h2'

/-- Witness for the amended claim C6 at slash-free names: owner u, repo r owns
the URL exactly by its derived front part, and reconfiguring to owner uu
makes ownsUrl false. -/
theorem ownsUrl_iff_and_flip_witness :
    (((⟨"", "", "", ""⟩ : GitHubImageHost).setConfig (mkHostConfig "t" "u" "r")).ownsUrl
       "https://raw.githubusercontent.com/u/r/master/img.png" =
      qStartsWith "https://raw.githubusercontent.com/u/r/master/img.png"
        (imageUrlPrefixFor "u" "r")) ∧
    ((⟨"", "", "", ""⟩ : GitHubImageHost).setConfig (mkHostConfig "t2" "uu" "r")).ownsUrl
       "https://raw.githubusercontent.com/u/r/master/img.png" = false :=
  ⟨(ownsUrl_iff_and_flip ⟨"", "", "", ""⟩ ⟨"", "", "", ""⟩ "t" "t2" "u" "r" "uu" "r"
      "https://raw.githubusercontent.com/u/r/master/img.png"
      (by decide) (by decide) (by decide) (by decide) (by decide)).1
      "https://raw.githubusercontent.com/u/r/master/img.png",
   (ownsUrl_iff_and_flip ⟨"", "", "", ""⟩ ⟨"", "", "", ""⟩ "t" "t2" "u" "r" "uu" "r"
      "https://raw.githubusercontent.com/u/r/master/img.png"
      (by decide) (by decide) (by decide) (by decide) (by decide)).2 (by decide)⟩
